import Mathlib

/-
Shallow embedding of the data-processing pipeline from
src/refactoring/oop_process_data.py and src/refactoring/oop_with_logging.py.

Modelling conventions:
- Python strings are modelled as lists of characters (`Str`); the model works
  in the ASCII fragment, so `str.isdigit` is "non-empty and every character is
  one of the decimal digits 0-9", `str.strip()` removes the ASCII whitespace
  characters, and string truthiness is non-emptiness.
- Python exceptions are modelled by `Except Err`; `ValueError("No numbers to
  compute statistic.")` is `Err.invalidInput` (the spec's InvalidInput) and an
  out-of-range list subscript is `Err.indexError`.
- Python `/` on integers is true division; its exact value is modelled in `Rat`.
- Logging (`self._log`, timers) is side-effect only and does not touch the
  data flow, so the logging variants of the roles have the same data semantics
  as the plain ones; the presenters are modelled by the list of
  (label, value) events they emit.
-/

/-- Python exceptions raised by the embedded code. -/
inductive Err where
  | invalidInput
  | indexError
deriving DecidableEq, Repr

deriving instance DecidableEq for Except

/-- Python strings, modelled as lists of characters. -/
abbrev Str := List Char

/-- ASCII fragment of the whitespace test used by Python `str.strip()`. -/
def pyIsSpace (c : Char) : Bool :=
  c = ' ' || c = '\t' || c = '\n' || c = '\x0b' || c = '\x0c' || c = '\r'

/-- Python `s.strip()`: remove the leading and the trailing run of whitespace. -/
def pyStrip (s : Str) : Str :=
  List.rdropWhile pyIsSpace (List.dropWhile pyIsSpace s)

/-- Python `s.isdigit()` (ASCII fragment): non-empty and only decimal digits. -/
def pyIsDigit (s : Str) : Bool :=
  !s.isEmpty && s.all Char.isDigit

/-- Python `int(s)` on a string of decimal digits: its decimal value. -/
def pyInt (s : Str) : Int :=
  (s.foldl (fun acc c => 10 * acc + (c.toNat - '0'.toNat)) 0 : Nat)

/-- Python list subscript `l[i]`: a negative index counts from the end, an
out-of-range index raises IndexError. -/
def pyGet (l : List Int) (i : Int) : Except Err Int :=
  let j : Int := if i < 0 then i + l.length else i
  if h : 0 ≤ j ∧ j.toNat < l.length then Except.ok (l.get ⟨j.toNat, h.2⟩)
  else Except.error Err.indexError

/-- Embeds `WhitespaceCleaner.clean` (both files): `[x.strip() for x in data if x]`. -/
def WhitespaceCleaner.clean : List Str → List Str
  | [] => []
  | x :: xs =>
    if !x.isEmpty then pyStrip x :: WhitespaceCleaner.clean xs
    else WhitespaceCleaner.clean xs

/-- Embeds `DigitStringToIntExtractor.extract` (both files):
`[int(x) for x in data if x.isdigit()]`. -/
def DigitStringToIntExtractor.extract : List Str → List Int
  | [] => []
  | x :: xs =>
    if pyIsDigit x then pyInt x :: DigitStringToIntExtractor.extract xs
    else DigitStringToIntExtractor.extract xs

/-- Embeds `Statistic.validate` (base class): raise ValueError on an empty sequence,
otherwise return the sequence. -/
def Statistic.validate (numbers : List Int) : Except Err (List Int) :=
  if numbers.isEmpty then Except.error Err.invalidInput else Except.ok numbers

/-- Embeds `MeanStatistic.compute` from src/refactoring/oop_process_data.py:
materialise the list, raise ValueError if empty, else `sum(nums) / len(nums)`. -/
def MeanStatistic.compute (numbers : List Int) : Except Err Rat :=
  let nums := numbers
  if nums.isEmpty then Except.error Err.invalidInput
  else Except.ok ((nums.sum : Rat) / (nums.length : Rat))

/-- Embeds `MedianStatistic.compute` from src/refactoring/oop_process_data.py:
sort, then index around the midpoint with Python subscripts; note that this
variant performs no emptiness validation before indexing. -/
def MedianStatistic.compute (numbers : List Int) : Except Err Rat := do
  let sorted_nums := List.insertionSort (· ≤ ·) numbers
  let n : Int := sorted_nums.length
  let mid : Int := n / 2
  if n % 2 = 0 then do
    let a ← pyGet sorted_nums (mid - 1)
    let b ← pyGet sorted_nums mid
    return ((a : Rat) + (b : Rat)) / 2
  else do
    let m ← pyGet sorted_nums mid
    return (m : Rat)

/-- Embeds `MeanStatistic.compute` from src/refactoring/oop_with_logging.py:
`validate` first, then `sum(nums) / len(nums)`. -/
def LogMeanStatistic.compute (numbers : List Int) : Except Err Rat := do
  let nums ← Statistic.validate numbers
  return ((nums.sum : Rat) / (nums.length : Rat))

/-- Embeds `MedianStatistic.compute` from src/refactoring/oop_with_logging.py:
`validate` first, then the same sort-and-index reduction. -/
def LogMedianStatistic.compute (numbers : List Int) : Except Err Rat := do
  let nums ← Statistic.validate numbers
  let sorted_nums := List.insertionSort (· ≤ ·) nums
  let n : Int := sorted_nums.length
  let mid : Int := n / 2
  if n % 2 = 0 then do
    let a ← pyGet sorted_nums (mid - 1)
    let b ← pyGet sorted_nums mid
    return ((a : Rat) + (b : Rat)) / 2
  else do
    let m ← pyGet sorted_nums mid
    return (m : Rat)

/-- Embeds `PrintPresenter.present`: consumes (label, value); modelled by the single
output event it emits. It has no way to change the value the pipeline returns. -/
def PrintPresenter.present (label : Str) (value : Rat) : List (Str × Rat) :=
  [(label, value)]

/-- Embeds `LoggerPresenter.present`: same data behaviour, the event goes to the log. -/
def LoggerPresenter.present (label : Str) (value : Rat) : List (Str × Rat) :=
  [(label, value)]

/-- Embeds `DataPipeline.run` from src/refactoring/oop_process_data.py: clean, then
extract, then compute; if compute raises, the exception propagates and the
presenter is never reached; otherwise present (when configured) and return the
computed value.  The second component collects the presenter's events. -/
def DataPipeline.run (statistic : List Int → Except Err Rat)
    (presenter : Option (Str → Rat → List (Str × Rat)))
    (raw : List Str) (label : Str) : Except Err Rat × List (Str × Rat) :=
  let cleaned := WhitespaceCleaner.clean raw
  let numbers := DigitStringToIntExtractor.extract cleaned
  match statistic numbers with
  | Except.error e => (Except.error e, [])
  | Except.ok value =>
    match presenter with
    | some pres => (Except.ok value, pres label value)
    | none => (Except.ok value, [])

/-- Embeds `DataPipeline.run` from src/refactoring/oop_with_logging.py: the same
linear body inside a try/except whose handler logs and re-raises the same
exception unchanged. -/
def LogDataPipeline.run (statistic : List Int → Except Err Rat)
    (presenter : Option (Str → Rat → List (Str × Rat)))
    (raw : List Str) (label : Str) : Except Err Rat × List (Str × Rat) :=
  let attempt :=
    let cleaned := WhitespaceCleaner.clean raw
    let numbers := DigitStringToIntExtractor.extract cleaned
    match statistic numbers with
    | Except.error e => (Except.error e, [])
    | Except.ok value =>
      match presenter with
      | some pres => (Except.ok value, pres label value)
      | none => (Except.ok value, [])
  match attempt with
  | (Except.error e, evs) => (Except.error e, evs)
  | ok => ok

/-- The Statistic implementations a pipeline can be configured with. -/
inductive StatChoice where
  | mean
  | median
deriving DecidableEq

/-- Dispatch of `statistic.compute` for a configured choice. -/
def StatChoice.compute : StatChoice → List Int → Except Err Rat
  | StatChoice.mean => MeanStatistic.compute
  | StatChoice.median => MedianStatistic.compute

/-- The `DataPipeline` object: `__init__` stores the injected roles and `run`
never assigns to `self`, so the object's state is exactly its configuration. -/
structure DataPipelineObj where
  statChoice : StatChoice
  hasPresenter : Bool
deriving DecidableEq

/-- Embeds `run` as a state-passing function on the pipeline object: the method body
reads `self.cleaner`, `self.extractor`, `self.statistic`, `self.presenter` and
performs no assignment to `self`, so the returned object is the receiver. -/
def DataPipelineObj.runS (p : DataPipelineObj) (raw : List Str) (label : Str) :
    (Except Err Rat × List (Str × Rat)) × DataPipelineObj :=
  (DataPipeline.run p.statChoice.compute
      (if p.hasPresenter then some PrintPresenter.present else none) raw label,
   p)

/-- The raw input of the usage example: `[" 12", "abc", " 5", " 20 "]`. -/
def exRaw : List Str :=
  [[' ', '1', '2'], ['a', 'b', 'c'], [' ', '5'], [' ', '2', '0', ' ']]

/-- A concrete label. -/
def exLabel : Str := ['A', 'v', 'g']

example : WhitespaceCleaner.clean exRaw =
    [['1', '2'], ['a', 'b', 'c'], ['5'], ['2', '0']] := by decide

example : DigitStringToIntExtractor.extract (WhitespaceCleaner.clean exRaw) =
    [12, 5, 20] := by decide

example : MeanStatistic.compute [12, 5, 20] = Except.ok (37 / 3 : Rat) := by rfl

example : MedianStatistic.compute [1, 2, 3, 4] = Except.ok (5 / 2 : Rat) := by
  with_unfolding_all rfl

example : MedianStatistic.compute [] = Except.error Err.indexError := by rfl

example : LogMedianStatistic.compute [] = Except.error Err.invalidInput := by rfl

/-- The comprehension of `clean` is filtering out the falsy records and
stripping the survivors. -/
lemma clean_eq_filter_map (data : List Str) :
    WhitespaceCleaner.clean data =
      (data.filter (fun x => !x.isEmpty)).map pyStrip := by
  induction data with
  | nil => rfl
  | cons x xs ih =>
    by_cases h : x.isEmpty <;>
      simp [WhitespaceCleaner.clean, List.filter_cons, h, ih]

/-- The comprehension of `extract` is filtering with `isdigit` and converting
the survivors with `int`. -/
lemma extract_eq_filter_map (data : List Str) :
    DigitStringToIntExtractor.extract data =
      (data.filter pyIsDigit).map pyInt := by
  induction data with
  | nil => rfl
  | cons x xs ih =>
    by_cases h : pyIsDigit x <;>
      simp [DigitStringToIntExtractor.extract, List.filter_cons, h, ih]

/-- C1: the claim asks every Statistic variant to fail with InvalidInput on the
empty sequence, before any reduction logic.  The Mean variant and both logging
variants do raise the InvalidInput ValueError, but `MedianStatistic.compute`
of src/refactoring/oop_process_data.py skips the shared `validate` check and
reaches `sorted_nums[mid - 1]` with `mid = 0`, raising IndexError instead. -/
theorem C1_empty_input_exceptions :
    MeanStatistic.compute ([] : List Int) = Except.error Err.invalidInput ∧
    LogMeanStatistic.compute ([] : List Int) = Except.error Err.invalidInput ∧
    LogMedianStatistic.compute ([] : List Int) = Except.error Err.invalidInput ∧
    MedianStatistic.compute ([] : List Int) = Except.error Err.indexError := by
  refine ⟨rfl, rfl, rfl, ?_⟩
  with_unfolding_all rfl

/-- C3: `extract` is a total function that keeps exactly the entries that are
non-empty and all decimal digits, converts them with `int`, drops the rest,
and returns as many values as there are purely-digit entries. -/
theorem C3_extract_total_keeps_digit_strings :
    (∀ data : List Str,
      DigitStringToIntExtractor.extract data = (data.filter pyIsDigit).map pyInt) ∧
    (∀ data : List Str,
      (DigitStringToIntExtractor.extract data).length =
        (data.filter pyIsDigit).length) := by
  refine ⟨extract_eq_filter_map, fun data => ?_⟩
  rw [extract_eq_filter_map, List.length_map]

/-- On a non-empty list the Mean reduction returns sum over length. -/
lemma meanCompute_eq (S : List Int) (h : S ≠ []) :
    MeanStatistic.compute S = Except.ok ((S.sum : Rat) / (S.length : Rat)) := by
  cases S with
  | nil => exact absurd rfl h
  | cons a as => rfl

/-- C6: the Mean variant of a non-empty integer sequence is exactly the sum
divided by the length, as an exact rational. -/
theorem C6_mean_is_sum_div_length (S : List Int) (h : S ≠ []) :
    MeanStatistic.compute S = Except.ok ((S.sum : Rat) / (S.length : Rat)) :=
  meanCompute_eq S h

/-- C6 witness. -/
theorem C6_mean_witness :
    ([1, 2, 3] : List Int) ≠ [] ∧
    MeanStatistic.compute [1, 2, 3] =
      Except.ok ((([1, 2, 3] : List Int).sum : Rat) /
        ((([1, 2, 3] : List Int).length : Nat) : Rat)) :=
  ⟨by decide, C6_mean_is_sum_div_length [1, 2, 3] (by decide)⟩

/-- C7: `clean` drops exactly the falsy (empty-string) entries, strips the
remaining entries, preserves their relative order, and maps the spec's example
input to the expected output. -/
theorem C7_clean_drops_falsy_and_trims :
    (∀ data : List Str,
      WhitespaceCleaner.clean data =
        (data.filter (fun x => !x.isEmpty)).map pyStrip) ∧
    WhitespaceCleaner.clean
        [[' ', '1', '2'], [], ['a', 'b', 'c'], [' ', '5'], [' ', '2', '0', ' ']] =
      [['1', '2'], ['a', 'b', 'c'], ['5'], ['2', '0']] :=
  ⟨clean_eq_filter_map, by decide⟩

/-- A list with no leading satisfying element keeps that property after
`rdropWhile`, because `rdropWhile` only shortens the list from the right. -/
lemma dropWhile_rdropWhile_eq_self {α : Type} (p : α → Bool) (t : List α)
    (h : List.dropWhile p t = t) :
    List.dropWhile p (List.rdropWhile p t) = List.rdropWhile p t := by
  rw [List.dropWhile_eq_self_iff] at h ⊢
  intro hl
  have hpre := List.rdropWhile_prefix p t
  have hlt : 0 < t.length := lt_of_lt_of_le hl hpre.length_le
  have hget : (List.rdropWhile p t).get ⟨0, hl⟩ = t.get ⟨0, hlt⟩ := by
    simp only [List.get_eq_getElem]
    exact hpre.getElem hl
  rw [hget]
  exact h hlt

/-- Stripping is idempotent: a stripped string is already trimmed. -/
lemma pyStrip_idempotent (s : Str) : pyStrip (pyStrip s) = pyStrip s := by
  unfold pyStrip
  rw [dropWhile_rdropWhile_eq_self pyIsSpace (List.dropWhile pyIsSpace s)
        (List.dropWhile_idempotent pyIsSpace s),
      List.rdropWhile_idempotent]

/-- C2 counterexample: the claim says no element of `clean`'s output is the
empty string even for whitespace-only records, but `clean` filters on
truthiness before stripping, so the whitespace-only record " " survives the
filter and strips to the empty string. -/
theorem C2_counterexample_whitespace_only :
    WhitespaceCleaner.clean [[' ']] = [([] : Str)] ∧
    ¬(∀ y ∈ WhitespaceCleaner.clean [[' ']], y ≠ ([] : Str)) := by
  constructor
  · decide
  · decide

/-- C2 amended: every element of `clean`'s output is a trimmed string (it is
its own strip); it may be empty when the input record was whitespace-only. -/
theorem C2_amended_clean_elements_trimmed (data : List Str) (y : Str)
    (hy : y ∈ WhitespaceCleaner.clean data) : pyStrip y = y := by
  rw [clean_eq_filter_map] at hy
  obtain ⟨x, _, rfl⟩ := List.mem_map.mp hy
  exact pyStrip_idempotent x

/-- C2 amended witness. -/
theorem C2_amended_witness :
    (['1', '2'] : Str) ∈ WhitespaceCleaner.clean [[' ', '1', '2']] ∧
    pyStrip ['1', '2'] = ['1', '2'] :=
  ⟨by decide,
   C2_amended_clean_elements_trimmed [[' ', '1', '2']] ['1', '2'] (by decide)⟩

/-- C5: `run` is the linear composition clean, then extract, then compute: when
compute succeeds with `v`, `run` returns `v` itself (the presenter cannot alter
it) and the configured presenter is invoked on exactly (label, v); and on the
usage example with the Mean statistic the returned value is 37/3. -/
theorem C5_run_is_linear_composition
    (stat : List Int → Except Err Rat)
    (presenter : Option (Str → Rat → List (Str × Rat)))
    (raw : List Str) (label : Str) (v : Rat)
    (h : stat (DigitStringToIntExtractor.extract (WhitespaceCleaner.clean raw)) =
      Except.ok v) :
    DataPipeline.run stat presenter raw label =
      (Except.ok v, presenter.elim [] (fun pres => pres label v)) ∧
    (DataPipeline.run MeanStatistic.compute (some PrintPresenter.present)
        exRaw exLabel).1 = Except.ok (37 / 3 : Rat) := by
  constructor
  · simp only [DataPipeline.run, h]
    cases presenter <;> rfl
  · rfl

/-- C5 witness. -/
theorem C5_run_witness :
    MeanStatistic.compute
        (DigitStringToIntExtractor.extract (WhitespaceCleaner.clean exRaw)) =
      Except.ok (37 / 3 : Rat) ∧
    DataPipeline.run MeanStatistic.compute (some PrintPresenter.present)
        exRaw exLabel =
      (Except.ok (37 / 3 : Rat), [(exLabel, (37 / 3 : Rat))]) :=
  ⟨rfl,
   (C5_run_is_linear_composition MeanStatistic.compute
      (some PrintPresenter.present) exRaw exLabel (37 / 3) rfl).1⟩

/-- C8: if compute fails during a run, the run aborts with the same error
propagated unchanged (no retry, no sentinel value) and the presenter is never
invoked; the try/except of the logging pipeline re-raises identically. -/
theorem C8_compute_failure_propagates
    (stat : List Int → Except Err Rat)
    (presenter : Option (Str → Rat → List (Str × Rat)))
    (raw : List Str) (label : Str) (e : Err)
    (h : stat (DigitStringToIntExtractor.extract (WhitespaceCleaner.clean raw)) =
      Except.error e) :
    DataPipeline.run stat presenter raw label = (Except.error e, []) ∧
    LogDataPipeline.run stat presenter raw label = (Except.error e, []) := by
  constructor
  · simp only [DataPipeline.run, h]
  · simp only [LogDataPipeline.run, h]

/-- C8 witness: an input with no digit entry makes Mean raise InvalidInput. -/
theorem C8_failure_witness :
    MeanStatistic.compute
        (DigitStringToIntExtractor.extract
          (WhitespaceCleaner.clean [['a', 'b', 'c']])) =
      Except.error Err.invalidInput ∧
    DataPipeline.run MeanStatistic.compute (some PrintPresenter.present)
        [['a', 'b', 'c']] exLabel = (Except.error Err.invalidInput, []) :=
  ⟨rfl,
   (C8_compute_failure_propagates MeanStatistic.compute
      (some PrintPresenter.present) [['a', 'b', 'c']] exLabel
      Err.invalidInput rfl).1⟩

/-- A Python subscript at a nonnegative in-range index succeeds and returns
that element of the list. -/
lemma pyGet_eq_ok (l : List Int) (i : Int) (k : Nat) (hk : i = (k : Int))
    (hlt : k < l.length) : pyGet l i = Except.ok (l.getD k 0) := by
  subst hk
  have h0 : ¬((k : Int) < 0) := by omega
  simp only [pyGet, h0, if_false]
  rw [dif_pos ⟨by omega, by omega⟩, List.getD_eq_getElem l 0 hlt]
  have htn : ((k : Int)).toNat = k := by omega
  simp only [htn, List.get_eq_getElem]

/-- A successful Python subscript returns a member of the list. -/
lemma pyGet_mem {l : List Int} {i x : Int} (h : pyGet l i = Except.ok x) :
    x ∈ l := by
  simp only [pyGet] at h
  split at h
  · split at h
    · rw [Except.ok.injEq] at h
      exact h ▸ List.get_mem l _ _
    · exact Except.noConfusion h
  · split at h
    · rw [Except.ok.injEq] at h
      exact h ▸ List.get_mem l _ _
    · exact Except.noConfusion h

/-- On a non-empty list the Median reduction returns the middle of the
ascending sort (odd length) or the average of the two central elements (even
length). -/
lemma medianCompute_eq (S : List Int) (h : S ≠ []) :
    MedianStatistic.compute S =
      Except.ok
        (if S.length % 2 = 1 then
          (((List.insertionSort (· ≤ ·) S).getD (S.length / 2) 0 : Int) : Rat)
        else
          ((((List.insertionSort (· ≤ ·) S).getD (S.length / 2 - 1) 0 : Int) : Rat) +
            (((List.insertionSort (· ≤ ·) S).getD (S.length / 2) 0 : Int) : Rat)) / 2) := by
  have hm : S.length ≠ 0 := fun hz => h (List.length_eq_zero.mp hz)
  simp only [MedianStatistic.compute]
  set L := List.insertionSort (· ≤ ·) S with hLdef
  have hL : L.length = S.length := by
    rw [hLdef]
    exact List.length_insertionSort (fun a b : Int => a ≤ b) S
  rcases Nat.mod_two_eq_zero_or_one S.length with heven | hodd
  · rw [if_pos (show ((L.length : Int)) % 2 = 0 by omega)]
    have e1 : pyGet L ((L.length : Int) / 2 - 1) =
        Except.ok (L.getD (S.length / 2 - 1) 0) :=
      pyGet_eq_ok _ _ _ (by omega) (by omega)
    have e2 : pyGet L ((L.length : Int) / 2) =
        Except.ok (L.getD (S.length / 2) 0) :=
      pyGet_eq_ok _ _ _ (by omega) (by omega)
    rw [if_neg (show ¬S.length % 2 = 1 by omega)]
    simp only [e1, e2]
    rfl
  · rw [if_neg (show ¬((L.length : Int)) % 2 = 0 by omega)]
    have e2 : pyGet L ((L.length : Int) / 2) =
        Except.ok (L.getD (S.length / 2) 0) :=
      pyGet_eq_ok _ _ _ (by omega) (by omega)
    rw [if_pos hodd]
    simp only [e2]
    rfl

/-- C4: the Median variant of a non-empty integer sequence is the middle
element of the ascending sort for an odd length, and the average of the two
central elements of the ascending sort for an even length. -/
theorem C4_median_of_ascending_sort (S : List Int) (h : S ≠ []) :
    MedianStatistic.compute S =
      Except.ok
        (if S.length % 2 = 1 then
          (((List.insertionSort (· ≤ ·) S).getD (S.length / 2) 0 : Int) : Rat)
        else
          ((((List.insertionSort (· ≤ ·) S).getD (S.length / 2 - 1) 0 : Int) : Rat) +
            (((List.insertionSort (· ≤ ·) S).getD (S.length / 2) 0 : Int) : Rat)) / 2) :=
  medianCompute_eq S h

/-- C4 witness: the median of the four extracted values 1,2,3,4 is 5/2. -/
theorem C4_median_witness :
    ([1, 2, 3, 4] : List Int) ≠ [] ∧
    MedianStatistic.compute [1, 2, 3, 4] =
      Except.ok
        (if ([1, 2, 3, 4] : List Int).length % 2 = 1 then
          (((List.insertionSort (· ≤ ·) ([1, 2, 3, 4] : List Int)).getD
              (([1, 2, 3, 4] : List Int).length / 2) 0 : Int) : Rat)
        else
          ((((List.insertionSort (· ≤ ·) ([1, 2, 3, 4] : List Int)).getD
              (([1, 2, 3, 4] : List Int).length / 2 - 1) 0 : Int) : Rat) +
            (((List.insertionSort (· ≤ ·) ([1, 2, 3, 4] : List Int)).getD
              (([1, 2, 3, 4] : List Int).length / 2) 0 : Int) : Rat)) / 2) :=
  ⟨by decide, C4_median_of_ascending_sort [1, 2, 3, 4] (by decide)⟩

/-- C9: `run` carries no mutable state: as a state-passing function it returns
the receiver unchanged, so a second run with the same raw input and the same
configured Statistic returns the identical result. -/
theorem C9_run_deterministic_no_hidden_state
    (p : DataPipelineObj) (raw : List Str) (label : Str) :
    (p.runS raw label).2 = p ∧
    ((p.runS raw label).2.runS raw label).1 = (p.runS raw label).1 :=
  ⟨rfl, rfl⟩

/-- The integer value of a digit string is a natural number. -/
lemma pyInt_nonneg (s : Str) : 0 ≤ pyInt s :=
  Int.ofNat_nonneg _

/-- Every value produced by extraction is non-negative. -/
lemma extract_nonneg (data : List Str) :
    ∀ x ∈ DigitStringToIntExtractor.extract data, 0 ≤ x := by
  intro x hx
  rw [extract_eq_filter_map] at hx
  obtain ⟨y, _, rfl⟩ := List.mem_map.mp hx
  exact pyInt_nonneg y

/-- A successful Mean over non-negative values is non-negative. -/
lemma mean_ok_nonneg {S : List Int} {v : Rat}
    (hnn : ∀ x ∈ S, 0 ≤ x) (h : MeanStatistic.compute S = Except.ok v) :
    0 ≤ v := by
  cases S with
  | nil => exact absurd h (by simp [MeanStatistic.compute])
  | cons a as =>
    rw [meanCompute_eq (a :: as) (by simp), Except.ok.injEq] at h
    rw [← h]
    apply div_nonneg
    · exact_mod_cast List.sum_nonneg hnn
    · exact Nat.cast_nonneg _

/-- A successful Median over non-negative values is non-negative. -/
lemma median_ok_nonneg {S : List Int} {v : Rat}
    (hnn : ∀ x ∈ S, 0 ≤ x) (h : MedianStatistic.compute S = Except.ok v) :
    0 ≤ v := by
  rcases eq_or_ne S [] with rfl | hne
  · rw [show MedianStatistic.compute [] = Except.error Err.indexError from by
      with_unfolding_all rfl] at h
    exact Except.noConfusion h
  · rw [medianCompute_eq S hne, Except.ok.injEq] at h
    have hL : (List.insertionSort (· ≤ ·) S).length = S.length :=
      List.length_insertionSort (fun a b : Int => a ≤ b) S
    have hlen : S.length ≠ 0 := fun hz => hne (List.length_eq_zero.mp hz)
    have hmemL : ∀ k, k < (List.insertionSort (· ≤ ·) S).length →
        (0 : Int) ≤ (List.insertionSort (· ≤ ·) S).getD k 0 := by
      intro k hk
      rw [List.getD_eq_getElem _ 0 hk]
      exact hnn _ ((List.mem_insertionSort (fun a b : Int => a ≤ b)).mp
        (List.getElem_mem hk))
    rw [← h]
    split
    · have h2 := hmemL (S.length / 2) (by omega)
      exact_mod_cast h2
    · apply div_nonneg
      · have h1 := hmemL (S.length / 2 - 1) (by omega)
        have h2 := hmemL (S.length / 2) (by omega)
        have h1r : (0 : Rat) ≤
            ((List.insertionSort (· ≤ ·) S).getD (S.length / 2 - 1) 0 : Int) := by
          exact_mod_cast h1
        have h2r : (0 : Rat) ≤
            ((List.insertionSort (· ≤ ·) S).getD (S.length / 2) 0 : Int) := by
          exact_mod_cast h2
        exact add_nonneg h1r h2r
      · norm_num

/-- C10: every integer produced by extraction is non-negative (digit strings
carry no sign), so the sequence handed to compute inside a run is
non-negative, and a successful run returns a non-negative summary value for
both the Mean and the Median choice. -/
theorem C10_pipeline_values_nonneg :
    (∀ data : List Str, ∀ x ∈ DigitStringToIntExtractor.extract data, 0 ≤ x) ∧
    (∀ (choice : StatChoice) (presenter : Option (Str → Rat → List (Str × Rat)))
        (raw : List Str) (label : Str) (v : Rat),
      (DataPipeline.run choice.compute presenter raw label).1 = Except.ok v →
        0 ≤ v) := by
  refine ⟨extract_nonneg, ?_⟩
  intro choice presenter raw label v hrun
  have hnn := extract_nonneg (WhitespaceCleaner.clean raw)
  have hcomp : choice.compute
      (DigitStringToIntExtractor.extract (WhitespaceCleaner.clean raw)) =
      Except.ok v := by
    simp only [DataPipeline.run] at hrun
    cases hc : choice.compute
        (DigitStringToIntExtractor.extract (WhitespaceCleaner.clean raw)) with
    | error e =>
      rw [hc] at hrun
      simp at hrun
    | ok value =>
      rw [hc] at hrun
      cases presenter <;> simp at hrun <;> rw [hrun]
  cases choice with
  | mean => exact mean_ok_nonneg hnn hcomp
  | median => exact median_ok_nonneg hnn hcomp

/-- C10 witness. -/
theorem C10_nonneg_witness :
    (DataPipeline.run StatChoice.mean.compute (some PrintPresenter.present)
        exRaw exLabel).1 = Except.ok (37 / 3 : Rat) ∧
    (0 : Rat) ≤ 37 / 3 :=
  ⟨rfl,
   C10_pipeline_values_nonneg.2 StatChoice.mean (some PrintPresenter.present)
     exRaw exLabel (37 / 3) rfl⟩
